import Mathlib

/-!
Shallow embedding of `src/app.py` (HPDC Industry Forecaster).

The repository has two pure estimators plus a presentation shell:

* `estimate_hpdc_production` (app.py lines 23-42): national HPDC demand.
  Python floats are modelled by `ℝ`; the exponent `**` is `Real.rpow`.
  The share computation divides by `total_hpdc`; in Python a zero total
  raises `ZeroDivisionError`, so the embedding returns `Option`: `none`
  models the propagating exception (the source has no guard and no
  dedicated error type).
* `predict_annual_revenue` (app.py lines 45-51): company revenue, purely
  rational arithmetic, modelled over `ℚ`.
* The Streamlit shell (lines 74-96 and 115-120) gates the mix-sum check
  and the revenue-per-employee display; it is modelled by
  `national_forecast_shell` and `shell_revenue_per_employee`.
-/

/-- Constant from app.py line 9: HPDC lbs per ICE vehicle. -/
def HPDC_per_ICE : ℝ := 190

/-- Constant from app.py line 10: HPDC lbs per HEV vehicle. -/
def HPDC_per_HEV : ℝ := 240

/-- Constant from app.py line 11: HPDC lbs per EV vehicle. -/
def HPDC_per_EV : ℝ := 300

/-- Constant from app.py line 19: base-year GDP in trillion USD. -/
def BASE_YEAR_GDP : ℝ := 25.44

/-- Constant from app.py line 20: base-year other HPDC demand in lbs. -/
def BASE_OTHER_HPDC : ℝ := 3.2e9

/-- The vehicle-mix record passed as a dict in app.py (keys ICE/HEV/EV). -/
structure VehicleMix where
  ICE : ℝ
  HEV : ℝ
  EV : ℝ

/-- The shares dict built at app.py lines 37-41 (keys Auto/Housing/Other). -/
structure HpdcShares where
  Auto : ℝ
  Housing : ℝ
  Other : ℝ

/-- app.py line 25: `gdp_growth_factor = (current_gdp / base_year_gdp) ** gdp_elasticity`. -/
noncomputable def gdp_growth_factor (base_year_gdp current_gdp gdp_elasticity : ℝ) : ℝ :=
  (current_gdp / base_year_gdp) ^ gdp_elasticity

/-- app.py line 26: `est_other_hpdc = base_year_other_hpdc * gdp_growth_factor`. -/
noncomputable def est_other_hpdc
    (base_year_other_hpdc base_year_gdp current_gdp gdp_elasticity : ℝ) : ℝ :=
  base_year_other_hpdc * gdp_growth_factor base_year_gdp current_gdp gdp_elasticity

/-- app.py lines 28-32: automotive HPDC demand summed over the three powertrains. -/
noncomputable def hpdc_auto (annual_vehicle_production : ℝ) (vehicle_mix : VehicleMix) : ℝ :=
  vehicle_mix.ICE / 100 * annual_vehicle_production * HPDC_per_ICE +
    vehicle_mix.HEV / 100 * annual_vehicle_production * HPDC_per_HEV +
    vehicle_mix.EV / 100 * annual_vehicle_production * HPDC_per_EV

/-- app.py line 34: `hpdc_housing = annual_housing_starts * 100`. -/
noncomputable def hpdc_housing (annual_housing_starts : ℝ) : ℝ :=
  annual_housing_starts * 100

/-- app.py line 35: `total_hpdc = hpdc_auto + hpdc_housing + est_other_hpdc`. -/
noncomputable def total_hpdc (annual_housing_starts annual_vehicle_production : ℝ)
    (vehicle_mix : VehicleMix)
    (base_year_gdp current_gdp base_year_other_hpdc gdp_elasticity : ℝ) : ℝ :=
  hpdc_auto annual_vehicle_production vehicle_mix + hpdc_housing annual_housing_starts +
    est_other_hpdc base_year_other_hpdc base_year_gdp current_gdp gdp_elasticity

/-- app.py lines 23-42: `estimate_hpdc_production`. Returns the total and the
shares dict. The source divides each component by `total_hpdc` with no guard;
when the total is zero Python raises `ZeroDivisionError`, modelled here as
`none` (the function produces no result). -/
noncomputable def estimate_hpdc_production
    (annual_housing_starts annual_vehicle_production : ℝ) (vehicle_mix : VehicleMix)
    (base_year_gdp current_gdp base_year_other_hpdc gdp_elasticity : ℝ) :
    Option (ℝ × HpdcShares) :=
  let t := total_hpdc annual_housing_starts annual_vehicle_production vehicle_mix
    base_year_gdp current_gdp base_year_other_hpdc gdp_elasticity
  if t = 0 then none
  else some (t,
    { Auto := hpdc_auto annual_vehicle_production vehicle_mix / t
      Housing := hpdc_housing annual_housing_starts / t
      Other := est_other_hpdc base_year_other_hpdc base_year_gdp current_gdp gdp_elasticity / t })

/-- app.py lines 74-89: the shell computes `total_mix` from the three sliders,
refuses with a warning when it is not 100, and otherwise calls
`estimate_hpdc_production` with the module constants as baseline. Slider
values are natural numbers (0-100 integer sliders). -/
noncomputable def national_forecast_shell
    (vehicle_mix_ice vehicle_mix_hev vehicle_mix_ev : ℕ)
    (annual_vehicle_production housing_starts gdp_current gdp_elasticity : ℝ) :
    Option (ℝ × HpdcShares) :=
  if vehicle_mix_ice + vehicle_mix_hev + vehicle_mix_ev = 100 then
    estimate_hpdc_production housing_starts annual_vehicle_production
      ⟨vehicle_mix_ice, vehicle_mix_hev, vehicle_mix_ev⟩
      BASE_YEAR_GDP gdp_current BASE_OTHER_HPDC gdp_elasticity
  else none

/-- The fixed market enumeration offered by the multiselect at app.py lines 109-113. -/
inductive Market where
  | Automotive
  | Medical
  | Consumer
  | Industrial
  | Aerospace
deriving DecidableEq

/-- app.py lines 45-51: `predict_annual_revenue(machines, employees, avg_tonnage,
markets)` returning `(revenue, clamping_force)`. All arithmetic is exact over ℚ. -/
def predict_annual_revenue (machines employees : ℕ) (avg_tonnage : ℚ)
    (markets : List Market) : ℚ × ℚ :=
  let automotive_weight : ℚ := if Market.Automotive ∈ markets then 1.8 else 1.0
  let clamping_force : ℚ := machines * avg_tonnage
  let revenue_per_ton : ℚ := 3000
  let base_revenue := clamping_force * revenue_per_ton
  let employee_efficiency : ℚ := employees * 250000
  ((base_revenue + employee_efficiency) * automotive_weight, clamping_force)

/-- app.py lines 119-120: the shell shows revenue per employee only when
`employees` is truthy (nonzero); with zero employees the metric is omitted
and no division happens. -/
def shell_revenue_per_employee (machines employees : ℕ) (avg_tonnage : ℚ)
    (markets : List Market) : Option ℚ :=
  if employees ≠ 0 then
    some ((predict_annual_revenue machines employees avg_tonnage markets).1 / employees)
  else none

/-- Claim C5: for every profile, `predict_annual_revenue` returns clamping
force `machines * avg_tonnage` and revenue
`(clamping_force * 3000 + employees * 250000) * multiplier` with multiplier
1.8 exactly when Automotive is served; on machines=10, avg_tonnage=200,
employees=50, markets={Automotive} it returns revenue 33300000 and clamping
force 2000. -/
theorem predict_revenue_formula :
    (∀ (machines employees : ℕ) (avg_tonnage : ℚ) (markets : List Market),
      predict_annual_revenue machines employees avg_tonnage markets =
        ((machines * avg_tonnage * 3000 + employees * 250000) *
          (if Market.Automotive ∈ markets then 1.8 else 1.0),
         machines * avg_tonnage)) ∧
    predict_annual_revenue 10 50 200 [Market.Automotive] = (33300000, 2000) := by
  constructor
  · intro machines employees avg_tonnage markets
    simp [predict_annual_revenue]
  · simp [predict_annual_revenue]
    norm_num

/-- Claim C7: revenue and clamping force depend on the served-market set only
through Automotive membership; the Industrial-only variant of the §8 profile
yields revenue 18500000. -/
theorem revenue_markets_noninterference :
    (∀ (machines employees : ℕ) (avg_tonnage : ℚ) (ms1 ms2 : List Market),
      (Market.Automotive ∈ ms1 ↔ Market.Automotive ∈ ms2) →
      predict_annual_revenue machines employees avg_tonnage ms1 =
        predict_annual_revenue machines employees avg_tonnage ms2) ∧
    predict_annual_revenue 10 50 200 [Market.Industrial] = (18500000, 2000) := by
  constructor
  · intro machines employees avg_tonnage ms1 ms2 hmem
    simp only [predict_annual_revenue, hmem]
  · simp [predict_annual_revenue]
    norm_num

/-- Witness for C7: two profiles differing only in Medical membership get the
same result. -/
theorem revenue_markets_noninterference_witness :
    predict_annual_revenue 10 50 200 [Market.Automotive, Market.Medical] =
      predict_annual_revenue 10 50 200 [Market.Automotive] :=
  revenue_markets_noninterference.1 10 50 200 _ _ (by decide)

/-- Claim C8: with zero employees the shell omits revenue-per-employee (no
division happens); with positive employees it equals revenue divided by
employees. -/
theorem revenue_per_employee_guarded (machines employees : ℕ) (avg_tonnage : ℚ)
    (markets : List Market) :
    (employees = 0 →
      shell_revenue_per_employee machines employees avg_tonnage markets = none) ∧
    (0 < employees →
      shell_revenue_per_employee machines employees avg_tonnage markets =
        some ((predict_annual_revenue machines employees avg_tonnage markets).1 / employees)) := by
  constructor
  · intro h
    simp [shell_revenue_per_employee, h]
  · intro h
    simp [shell_revenue_per_employee, Nat.pos_iff_ne_zero.mp h]

/-- Witness for C8: the zero-employee profile yields no ratio; the §8 profile
yields 666000. -/
theorem revenue_per_employee_guarded_witness :
    shell_revenue_per_employee 10 0 200 [Market.Automotive] = none ∧
    shell_revenue_per_employee 10 50 200 [Market.Automotive] = some 666000 := by
  constructor
  · exact (revenue_per_employee_guarded 10 0 200 [Market.Automotive]).1 rfl
  · rw [(revenue_per_employee_guarded 10 50 200 [Market.Automotive]).2 (by norm_num)]
    norm_num [predict_annual_revenue]

/-- Claim C9: for a fixed market set, revenue is monotone (non-decreasing) in
machines, avg_tonnage and employees jointly, hence in each separately. -/
theorem revenue_monotone (markets : List Market) (m m' e e' : ℕ) (t t' : ℚ)
    (ht : 0 ≤ t) (hm : m ≤ m') (htt : t ≤ t') (he : e ≤ e') :
    (predict_annual_revenue m e t markets).1 ≤ (predict_annual_revenue m' e' t' markets).1 := by
  simp only [predict_annual_revenue]
  have hw : (0 : ℚ) ≤ if Market.Automotive ∈ markets then 1.8 else 1.0 := by
    split <;> norm_num
  have hmq : (m : ℚ) ≤ (m' : ℚ) := by exact_mod_cast hm
  have heq : (e : ℚ) ≤ (e' : ℚ) := by exact_mod_cast he
  have hm0 : (0 : ℚ) ≤ (m : ℚ) := by positivity
  have h1 : (m : ℚ) * t * 3000 ≤ (m' : ℚ) * t' * 3000 := by nlinarith
  have h2 : (e : ℚ) * 250000 ≤ (e' : ℚ) * 250000 := by linarith
  exact mul_le_mul_of_nonneg_right (add_le_add h1 h2) hw

/-- Witness for C9: adding a machine to the §8 profile does not decrease
revenue. -/
theorem revenue_monotone_witness :
    (predict_annual_revenue 10 50 200 [Market.Automotive]).1 ≤
      (predict_annual_revenue 11 50 200 [Market.Automotive]).1 :=
  revenue_monotone [Market.Automotive] 10 11 50 50 200 200 (by norm_num)
    (by norm_num) le_rfl le_rfl

/-- Unfolding lemma: whenever the total is nonzero, the estimator returns the
total together with the three component shares. -/
theorem estimate_hpdc_production_eq (annual_housing_starts annual_vehicle_production : ℝ)
    (mix : VehicleMix) (b c o e : ℝ)
    (ht : total_hpdc annual_housing_starts annual_vehicle_production mix b c o e ≠ 0) :
    estimate_hpdc_production annual_housing_starts annual_vehicle_production mix b c o e =
      some (total_hpdc annual_housing_starts annual_vehicle_production mix b c o e,
        ⟨hpdc_auto annual_vehicle_production mix /
            total_hpdc annual_housing_starts annual_vehicle_production mix b c o e,
          hpdc_housing annual_housing_starts /
            total_hpdc annual_housing_starts annual_vehicle_production mix b c o e,
          est_other_hpdc o b c e /
            total_hpdc annual_housing_starts annual_vehicle_production mix b c o e⟩) := by
  simp only [estimate_hpdc_production]
  rw [if_neg ht]

/-- Claim C6: elasticity 0 makes the other-demand component equal to the
baseline regardless of current GDP, and elasticity 1 makes it
baseline times current_gdp / base_gdp. -/
theorem other_demand_elasticity (current_gdp base_year_gdp base_year_other_hpdc : ℝ)
    (hb : 0 < base_year_gdp) :
    est_other_hpdc base_year_other_hpdc base_year_gdp current_gdp 0 =
      base_year_other_hpdc ∧
    est_other_hpdc base_year_other_hpdc base_year_gdp current_gdp 1 =
      base_year_other_hpdc * (current_gdp / base_year_gdp) := by
  unfold est_other_hpdc gdp_growth_factor
  rw [Real.rpow_zero, mul_one, Real.rpow_one]
  exact ⟨rfl, rfl⟩

/-- Witness for C6 at the spec's baseline values. -/
theorem other_demand_elasticity_witness :
    est_other_hpdc (3.2e9) (2544 / 100) (271 / 10) 0 = 3.2e9 ∧
    est_other_hpdc (3.2e9) (2544 / 100) (271 / 10) 1 =
      3.2e9 * ((271 / 10) / (2544 / 100)) :=
  other_demand_elasticity (271 / 10) (2544 / 100) (3.2e9) (by norm_num)

/-- Claim C2 (amended): the shell refuses any mix whose slider percentages do
not sum to 100 and produces no result; the check happens in the shell, not in
the core function. -/
theorem shell_rejects_bad_mix (vehicle_mix_ice vehicle_mix_hev vehicle_mix_ev : ℕ)
    (annual_vehicle_production housing_starts gdp_current gdp_elasticity : ℝ)
    (hsum : vehicle_mix_ice + vehicle_mix_hev + vehicle_mix_ev ≠ 100) :
    national_forecast_shell vehicle_mix_ice vehicle_mix_hev vehicle_mix_ev
      annual_vehicle_production housing_starts gdp_current gdp_elasticity = none := by
  simp [national_forecast_shell, hsum]

/-- Witness for C2: the shell yields no result on the {ICE 50, HEV 30, EV 10}
mix (sum 90). -/
theorem shell_rejects_bad_mix_witness :
    national_forecast_shell 50 30 10 11200000 1400000 (271 / 10) (23 / 25) = none :=
  shell_rejects_bad_mix 50 30 10 11200000 1400000 (271 / 10) (23 / 25) (by decide)

/-- Counterexample for C2 as stated: the core function itself does not refuse
an invalid mix; called directly on the sum-90 mix {ICE 50, HEV 30, EV 10} it
silently computes a result (there is no InvalidMixError in the code). -/
theorem core_accepts_bad_mix :
    (estimate_hpdc_production 1400000 11200000 ⟨50, 30, 10⟩
      (2544 / 100) (271 / 10) (3.2e9) (23 / 25)).isSome = true := by
  have hg : 0 ≤ gdp_growth_factor (2544 / 100) (271 / 10) (23 / 25) :=
    Real.rpow_nonneg (by norm_num) _
  have ht : 0 < total_hpdc 1400000 11200000 ⟨50, 30, 10⟩
      (2544 / 100) (271 / 10) (3.2e9) (23 / 25) := by
    unfold total_hpdc hpdc_auto hpdc_housing est_other_hpdc
    unfold HPDC_per_ICE HPDC_per_HEV HPDC_per_EV
    nlinarith [hg]
  simp [estimate_hpdc_production, ht.ne']

/-- Claim C3: with all three demand components zero (zero housing starts, zero
vehicle production, zero baseline other demand) the total is zero and the
unguarded share division produces no result: the embedding returns `none`,
modelling the `ZeroDivisionError` that propagates out of the source, which
contains no guard and no DegenerateInputError. -/
theorem zero_total_unguarded :
    estimate_hpdc_production 0 0 ⟨45, 25, 30⟩ (2544 / 100) (271 / 10) 0 (23 / 25) =
      none := by
  simp [estimate_hpdc_production, total_hpdc, est_other_hpdc, hpdc_auto, hpdc_housing]

/-- Counterexample for C1 as stated: with zero current GDP (a non-negative GDP
input), zero housing starts and zero vehicle production — and the mix summing
to 100, base GDP and baseline other demand positive — the total demand is zero
and no shares are returned at all, so the shares cannot sum to 1. -/
theorem shares_sum_counterexample :
    estimate_hpdc_production 0 0 ⟨45, 25, 30⟩ (2544 / 100) 0 (3.2e9) (23 / 25) =
      none := by
  have hg : gdp_growth_factor (2544 / 100) 0 (23 / 25) = 0 := by
    unfold gdp_growth_factor
    rw [zero_div, Real.zero_rpow (by norm_num)]
  simp [estimate_hpdc_production, total_hpdc, est_other_hpdc, hpdc_auto, hpdc_housing, hg]

/-- Claim C1 (amended): with the mix summing to 100, non-negative mix
percentages, housing starts and vehicle production, and positive base GDP,
positive current GDP and positive baseline other demand, the estimator
returns shares that sum to exactly 1. -/
theorem shares_sum_to_one (annual_housing_starts annual_vehicle_production : ℝ)
    (mix : VehicleMix) (base_year_gdp current_gdp base_year_other_hpdc gdp_elasticity : ℝ)
    (hmix : mix.ICE + mix.HEV + mix.EV = 100)
    (hICE : 0 ≤ mix.ICE) (hHEV : 0 ≤ mix.HEV) (hEV : 0 ≤ mix.EV)
    (hh : 0 ≤ annual_housing_starts) (hp : 0 ≤ annual_vehicle_production)
    (hb : 0 < base_year_gdp) (hc : 0 < current_gdp) (ho : 0 < base_year_other_hpdc) :
    ∃ t s, estimate_hpdc_production annual_housing_starts annual_vehicle_production mix
        base_year_gdp current_gdp base_year_other_hpdc gdp_elasticity = some (t, s) ∧
      s.Auto + s.Housing + s.Other = 1 := by
  have hg : 0 < gdp_growth_factor base_year_gdp current_gdp gdp_elasticity :=
    Real.rpow_pos_of_pos (div_pos hc hb) _
  have hother : 0 < est_other_hpdc base_year_other_hpdc base_year_gdp current_gdp
      gdp_elasticity := mul_pos ho hg
  have hauto : 0 ≤ hpdc_auto annual_vehicle_production mix := by
    unfold hpdc_auto HPDC_per_ICE HPDC_per_HEV HPDC_per_EV
    positivity
  have hhous : 0 ≤ hpdc_housing annual_housing_starts := by
    unfold hpdc_housing
    positivity
  have ht : 0 < total_hpdc annual_housing_starts annual_vehicle_production mix
      base_year_gdp current_gdp base_year_other_hpdc gdp_elasticity := by
    unfold total_hpdc
    linarith
  refine ⟨_, _, estimate_hpdc_production_eq _ _ _ _ _ _ _ ht.ne', ?_⟩
  show hpdc_auto _ mix / _ + hpdc_housing _ / _ + est_other_hpdc _ _ _ _ / _ = 1
  rw [div_add_div_same, div_add_div_same]
  show total_hpdc annual_housing_starts annual_vehicle_production mix base_year_gdp
      current_gdp base_year_other_hpdc gdp_elasticity /
    total_hpdc annual_housing_starts annual_vehicle_production mix base_year_gdp
      current_gdp base_year_other_hpdc gdp_elasticity = 1
  exact div_self ht.ne'

/-- Witness for C1 (amended) at the spec's §8 inputs. -/
theorem shares_sum_to_one_witness :
    ∃ t s, estimate_hpdc_production 1400000 11200000 ⟨45, 25, 30⟩
        (2544 / 100) (271 / 10) (3.2e9) (23 / 25) = some (t, s) ∧
      s.Auto + s.Housing + s.Other = 1 :=
  shares_sum_to_one 1400000 11200000 ⟨45, 25, 30⟩ (2544 / 100) (271 / 10) (3.2e9)
    (23 / 25) (by norm_num) (by norm_num) (by norm_num) (by norm_num) (by norm_num)
    (by norm_num) (by norm_num) (by norm_num) (by norm_num)

/-- Claim C10: with non-negative inputs, positive base GDP and positive total
demand, every returned sector share lies in [0, 1]. -/
theorem shares_in_unit_interval (annual_housing_starts annual_vehicle_production : ℝ)
    (mix : VehicleMix) (base_year_gdp current_gdp base_year_other_hpdc gdp_elasticity : ℝ)
    (hICE : 0 ≤ mix.ICE) (hHEV : 0 ≤ mix.HEV) (hEV : 0 ≤ mix.EV)
    (hh : 0 ≤ annual_housing_starts) (hp : 0 ≤ annual_vehicle_production)
    (hb : 0 < base_year_gdp) (hc : 0 ≤ current_gdp) (ho : 0 ≤ base_year_other_hpdc)
    (ht : 0 < total_hpdc annual_housing_starts annual_vehicle_production mix
      base_year_gdp current_gdp base_year_other_hpdc gdp_elasticity) :
    ∃ t s, estimate_hpdc_production annual_housing_starts annual_vehicle_production mix
        base_year_gdp current_gdp base_year_other_hpdc gdp_elasticity = some (t, s) ∧
      0 ≤ s.Auto ∧ s.Auto ≤ 1 ∧ 0 ≤ s.Housing ∧ s.Housing ≤ 1 ∧
      0 ≤ s.Other ∧ s.Other ≤ 1 := by
  have hg : 0 ≤ gdp_growth_factor base_year_gdp current_gdp gdp_elasticity :=
    Real.rpow_nonneg (div_nonneg hc hb.le) _
  have hother : 0 ≤ est_other_hpdc base_year_other_hpdc base_year_gdp current_gdp
      gdp_elasticity := mul_nonneg ho hg
  have hauto : 0 ≤ hpdc_auto annual_vehicle_production mix := by
    unfold hpdc_auto HPDC_per_ICE HPDC_per_HEV HPDC_per_EV
    positivity
  have hhous : 0 ≤ hpdc_housing annual_housing_starts := by
    unfold hpdc_housing
    positivity
  have hsum : total_hpdc annual_housing_starts annual_vehicle_production mix
      base_year_gdp current_gdp base_year_other_hpdc gdp_elasticity =
      hpdc_auto annual_vehicle_production mix + hpdc_housing annual_housing_starts +
        est_other_hpdc base_year_other_hpdc base_year_gdp current_gdp gdp_elasticity := rfl
  refine ⟨_, _, estimate_hpdc_production_eq _ _ _ _ _ _ _ ht.ne', ?_, ?_, ?_, ?_, ?_, ?_⟩
  · exact div_nonneg hauto ht.le
  · rw [div_le_one ht]
    linarith [hsum]
  · exact div_nonneg hhous ht.le
  · rw [div_le_one ht]
    linarith [hsum]
  · exact div_nonneg hother ht.le
  · rw [div_le_one ht]
    linarith [hsum]

/-- Witness for C10 at the §8 inputs with elasticity 0 (growth factor 1). -/
theorem shares_in_unit_interval_witness :
    ∃ t s, estimate_hpdc_production 1400000 11200000 ⟨45, 25, 30⟩
        (2544 / 100) (271 / 10) (3.2e9) 0 = some (t, s) ∧
      0 ≤ s.Auto ∧ s.Auto ≤ 1 ∧ 0 ≤ s.Housing ∧ s.Housing ≤ 1 ∧
      0 ≤ s.Other ∧ s.Other ≤ 1 :=
  shares_in_unit_interval 1400000 11200000 ⟨45, 25, 30⟩ (2544 / 100) (271 / 10)
    (3.2e9) 0 (by norm_num) (by norm_num) (by norm_num) (by norm_num) (by norm_num)
    (by norm_num) (by norm_num) (by norm_num)
    (by
      unfold total_hpdc hpdc_auto hpdc_housing est_other_hpdc gdp_growth_factor
      rw [Real.rpow_zero]
      unfold HPDC_per_ICE HPDC_per_HEV HPDC_per_EV
      norm_num)

/-- The §8 growth factor raised to the 25th power equals (1355/1272)^23,
because (27.10 / 25.44) ** 0.92 = (1355/1272) ^ (23/25). -/
theorem growth_factor_pow_25 :
    gdp_growth_factor (2544 / 100) (271 / 10) (23 / 25) ^ (25 : ℕ) =
      ((1355 : ℝ) / 1272) ^ (23 : ℕ) := by
  have h0 : (0 : ℝ) ≤ 1355 / 1272 := by norm_num
  have hx : ((271 : ℝ) / 10) / (2544 / 100) = 1355 / 1272 := by norm_num
  unfold gdp_growth_factor
  rw [hx, ← Real.rpow_natCast (((1355 : ℝ) / 1272) ^ ((23 : ℝ) / 25)) 25,
    ← Real.rpow_mul h0, show ((23 : ℝ) / 25) * ((25 : ℕ) : ℝ) = ((23 : ℕ) : ℝ) by norm_num,
    Real.rpow_natCast]

/-- Rational enclosure of the §8 growth factor: 1.05987 < (27.10/25.44)^0.92
< 1.05989 (so it rounds to 1.0599, not to the spec's 1.0592). -/
theorem growth_factor_bounds :
    (105987 : ℝ) / 100000 < gdp_growth_factor (2544 / 100) (271 / 10) (23 / 25) ∧
    gdp_growth_factor (2544 / 100) (271 / 10) (23 / 25) < (105989 : ℝ) / 100000 := by
  have hg0 : 0 ≤ gdp_growth_factor (2544 / 100) (271 / 10) (23 / 25) := by
    unfold gdp_growth_factor
    exact Real.rpow_nonneg (by norm_num) _
  constructor
  · apply lt_of_pow_lt_pow_left₀ 25 hg0
    rw [growth_factor_pow_25]
    norm_num
  · apply lt_of_pow_lt_pow_left₀ 25 (by norm_num)
    rw [growth_factor_pow_25]
    norm_num

/-- Counterexample for C4 as stated: at the §8 inputs the automotive demand
is exactly 2,637,600,000, not the spec's 2,636,400,000 (the spec's first
product 0.45 x 11,200,000 x 190 is 957,600,000, not 956,400,000); the growth
factor is more than 0.0005 away from the spec's 1.0592 (it is about 1.0599);
and the other-demand component is more than a million pounds away from the
spec's 3,389,440,000 (it is about 3,391,610,000). -/
theorem concrete_case_counterexample :
    hpdc_auto 11200000 ⟨45, 25, 30⟩ = 2637600000 ∧
    hpdc_auto 11200000 ⟨45, 25, 30⟩ ≠ 2636400000 ∧
    (1 : ℝ) / 2000 < |gdp_growth_factor (2544 / 100) (271 / 10) (23 / 25) - 10592 / 10000| ∧
    (1000000 : ℝ) <
      |est_other_hpdc (3.2e9) (2544 / 100) (271 / 10) (23 / 25) - 3389440000| := by
  obtain ⟨h1, h2⟩ := growth_factor_bounds
  have hoth : est_other_hpdc (3.2e9) (2544 / 100) (271 / 10) (23 / 25) =
      3.2e9 * gdp_growth_factor (2544 / 100) (271 / 10) (23 / 25) := rfl
  have hmul : (3.2e9 : ℝ) * (105987 / 100000) <
      3.2e9 * gdp_growth_factor (2544 / 100) (271 / 10) (23 / 25) :=
    mul_lt_mul_of_pos_left h1 (by norm_num)
  have hauto : hpdc_auto 11200000 ⟨45, 25, 30⟩ = 2637600000 := by
    unfold hpdc_auto HPDC_per_ICE HPDC_per_HEV HPDC_per_EV
    norm_num
  refine ⟨hauto, ?_, ?_, ?_⟩
  · rw [hauto]
    norm_num
  · rw [abs_of_pos (by linarith)]
    linarith
  · rw [hoth, abs_of_pos (by nlinarith)]
    nlinarith

/-- Claim C4 (amended): at the §8 inputs, automotive demand is exactly
2,637,600,000 and housing demand exactly 140,000,000; the growth factor lies
in (1.05987, 1.05989) — about 1.0599, not the spec's 1.0592 — so total demand
lies in (6,169,184,000, 6,169,248,000) — about 6.169 billion lbs — and the
shares are about {Auto 0.4275, Housing 0.0227, Other 0.5498}. -/
theorem concrete_case_amended :
    hpdc_auto 11200000 ⟨45, 25, 30⟩ = 2637600000 ∧
    hpdc_housing 1400000 = 140000000 ∧
    (105987 : ℝ) / 100000 < gdp_growth_factor (2544 / 100) (271 / 10) (23 / 25) ∧
    gdp_growth_factor (2544 / 100) (271 / 10) (23 / 25) < (105989 : ℝ) / 100000 ∧
    ∃ t s, estimate_hpdc_production 1400000 11200000 ⟨45, 25, 30⟩
        (2544 / 100) (271 / 10) (3.2e9) (23 / 25) = some (t, s) ∧
      (6169184000 : ℝ) < t ∧ t < 6169248000 ∧
      (0.42753 : ℝ) < s.Auto ∧ s.Auto < 0.42755 ∧
      (0.02269 : ℝ) < s.Housing ∧ s.Housing < 0.02270 ∧
      (0.54975 : ℝ) < s.Other ∧ s.Other < 0.54978 := by
  have hauto : hpdc_auto 11200000 ⟨45, 25, 30⟩ = 2637600000 := by
    unfold hpdc_auto HPDC_per_ICE HPDC_per_HEV HPDC_per_EV
    norm_num
  have hhous : hpdc_housing 1400000 = 140000000 := by
    unfold hpdc_housing
    norm_num
  obtain ⟨hg1, hg2⟩ := growth_factor_bounds
  have hoth : est_other_hpdc (3.2e9) (2544 / 100) (271 / 10) (23 / 25) =
      3.2e9 * gdp_growth_factor (2544 / 100) (271 / 10) (23 / 25) := rfl
  have hoth_lo : (3391584000 : ℝ) < est_other_hpdc (3.2e9) (2544 / 100) (271 / 10) (23 / 25) := by
    rw [hoth]
    nlinarith
  have hoth_hi : est_other_hpdc (3.2e9) (2544 / 100) (271 / 10) (23 / 25) <
      (3391648000 : ℝ) := by
    rw [hoth]
    nlinarith
  have htot : total_hpdc 1400000 11200000 ⟨45, 25, 30⟩ (2544 / 100) (271 / 10)
      (3.2e9) (23 / 25) = 2637600000 + 140000000 +
        est_other_hpdc (3.2e9) (2544 / 100) (271 / 10) (23 / 25) := by
    unfold total_hpdc
    rw [hauto, hhous]
  have ht_lo : (6169184000 : ℝ) < total_hpdc 1400000 11200000 ⟨45, 25, 30⟩
      (2544 / 100) (271 / 10) (3.2e9) (23 / 25) := by
    rw [htot]
    linarith
  have ht_hi : total_hpdc 1400000 11200000 ⟨45, 25, 30⟩
      (2544 / 100) (271 / 10) (3.2e9) (23 / 25) < (6169248000 : ℝ) := by
    rw [htot]
    linarith
  have htpos : (0 : ℝ) < total_hpdc 1400000 11200000 ⟨45, 25, 30⟩
      (2544 / 100) (271 / 10) (3.2e9) (23 / 25) := by linarith
  refine ⟨hauto, hhous, hg1, hg2, _, _,
    estimate_hpdc_production_eq _ _ _ _ _ _ _ htpos.ne', ht_lo, ht_hi, ?_, ?_, ?_, ?_, ?_, ?_⟩
  · show (0.42753 : ℝ) < hpdc_auto 11200000 ⟨45, 25, 30⟩ / _
    rw [hauto, lt_div_iff₀ htpos]
    nlinarith
  · show hpdc_auto 11200000 ⟨45, 25, 30⟩ / _ < (0.42755 : ℝ)
    rw [hauto, div_lt_iff₀ htpos]
    nlinarith
  · show (0.02269 : ℝ) < hpdc_housing 1400000 / _
    rw [hhous, lt_div_iff₀ htpos]
    nlinarith
  · show hpdc_housing 1400000 / _ < (0.02270 : ℝ)
    rw [hhous, div_lt_iff₀ htpos]
    nlinarith
  · show (0.54975 : ℝ) < est_other_hpdc (3.2e9) (2544 / 100) (271 / 10) (23 / 25) / _
    rw [lt_div_iff₀ htpos]
    nlinarith
  · show est_other_hpdc (3.2e9) (2544 / 100) (271 / 10) (23 / 25) / _ < (0.54978 : ℝ)
    rw [div_lt_iff₀ htpos]
    nlinarith
